import Mathlib

/-!
# Verification of the dotmil-recon liveness/probing pipeline

Shallow embedding of the `dotmil_recon` Python package
(`core/models.py`, `core/prober.py`, `core/processor.py`,
`outputs/csv.py`, `outputs/json.py`, `cli.py`) together with proofs of
the specified properties.

Conventions of the embedding:
* Python strings are `String`, operated on through their `List Char`
  data where kernel-computability matters; Python `str.lower`,
  slicing `s[:n]`, `str.replace`, `str.split`, `in` (substring) and
  `str.join` are embedded as the char-list functions below.
* The network, DNS and the `re` regular-expression engine are external
  libraries, not code of this repository; they are abstracted as an
  environment `Env` of oracle functions.  `re.search(p, v)` becomes
  `re_search p v : Option (List String)` returning the list
  `match.groups()` on a match (so `match.groups()` is truthy iff the
  returned list is nonempty), and the one-group `<title>` search
  becomes `title_group : String → Option String` returning
  `match.group(1)`.
* `requests.get` either returns a response or raises; this is the
  `NetOutcome` type.  Wall-clock duration is the oracle `elapsed_ms`.
* Python `datetime` values are the `DateTime` structure; `isoformat()`
  and the pydantic JSON rendering/parsing are embedded below.
-/

/-- Python `datetime.datetime` (UTC-aware), microsecond precision. -/
structure DateTime where
  year : Nat
  month : Nat
  day : Nat
  hour : Nat
  minute : Nat
  second : Nat
  microsecond : Nat
deriving DecidableEq

/-- Embedding of `models.HttpProbeResult` (pydantic model).  Field defaults mirror the
pydantic defaults in `core/models.py`. -/
structure HttpProbeResult where
  url : String
  status_code : Nat
  final_url : Option String := none
  headers : List (String × String) := []
  technologies : List String := []
  server : Option String := none
  title : Option String := none
  content_length : Option Int := none
  tls : Bool := false
  error : Option String := none
  duration_ms : Option Nat := none
deriving DecidableEq

/-- Embedding of `models.Asset` (pydantic model). -/
structure Asset where
  domain : String
  source : String
  discovered_at : DateTime
  ip : Option String := none
  org : Option String := none
  cert_issued : Option DateTime := none
  cert_expires : Option DateTime := none
  tags : List String := []
  live : Option Bool := none
  http : Option HttpProbeResult := none
  https : Option HttpProbeResult := none
deriving DecidableEq

/-! ## Char-list embeddings of the Python string primitives -/

/-- Python slicing `s[:n]` (by characters). -/
def py_truncate (n : Nat) (s : String) : String := ⟨s.data.take n⟩

/-- Python `str.lower` (ASCII; the repository only lowers ASCII header
names/values and hostnames). -/
def to_lower (s : String) : String := ⟨s.data.map Char.toLower⟩

/-- Embedding of `p.isPrefixOf s || ...` scan: Python substring test `pat in s`. -/
def infix_chars : List Char → List Char → Bool
  | p, [] => p.isEmpty
  | p, c :: t => p.isPrefixOf (c :: t) || infix_chars p t

/-- Python `pat in s` for strings. -/
def has_sub (pat s : String) : Bool := infix_chars pat.data s.data

/-- One step of Python `str.replace`: fuelled left-to-right
non-overlapping replacement (fuel = length of the subject, which
bounds the number of steps). -/
def replace_fuel (pat rep : List Char) : Nat → List Char → List Char
  | _, [] => []
  | 0, cs => cs
  | Nat.succ fuel, c :: cs =>
    if !pat.isEmpty && pat.isPrefixOf (c :: cs) then
      rep ++ replace_fuel pat rep fuel (List.drop (pat.length - 1) cs)
    else
      c :: replace_fuel pat rep fuel cs

/-- Python `s.replace(pat, rep)` (for the nonempty patterns used by the
repository). -/
def str_replace (s pat rep : String) : String :=
  ⟨replace_fuel pat.data rep.data s.data.length s.data⟩

/-- Python `sep.join(l)`. -/
def py_join (sep : String) : List String → String
  | [] => ""
  | x :: xs => xs.foldl (fun acc y => acc ++ sep ++ y) x

/-- Little-endian decimal digits of `n` (fuelled; `digits_core n n`
terminates because each step divides by 10). -/
def digits_core : Nat → Nat → List Nat
  | 0, _ => []
  | Nat.succ fuel, n => if n = 0 then [] else n % 10 :: digits_core fuel (n / 10)

/-- Decimal characters of `n`, most significant first: Python `str(n)`
for a nonnegative int. -/
def nat_chars (n : Nat) : List Char :=
  if n = 0 then ['0'] else ((digits_core n n).reverse.map Nat.digitChar)

/-- Python `str(n)` for `n : Nat`. -/
def py_str_nat (n : Nat) : String := ⟨nat_chars n⟩

/-- Value of a decimal digit character. -/
def char_val (c : Char) : Nat := c.toNat - 48

/-- Value of a little-endian decimal digit list. -/
def of_digits : List Nat → Nat
  | [] => 0
  | d :: ds => d + 10 * of_digits ds

/-- Numeric value of a most-significant-first decimal character list. -/
def chars_to_nat (ds : List Char) : Nat := of_digits ((ds.map char_val).reverse)

/-- Python `str.strip()` (whitespace from both ends). -/
def py_strip (s : String) : String :=
  ⟨((s.data.dropWhile Char.isWhitespace).reverse.dropWhile Char.isWhitespace).reverse⟩

/-- Python `int(s)` (decimal literals with optional sign and surrounding
whitespace; returns `none` where Python `int()` would raise
`ValueError`). -/
def py_int (s : String) : Option Int :=
  let t := py_strip s
  let core : Bool × List Char :=
    match t.data with
    | '-' :: rest => (true, rest)
    | '+' :: rest => (false, rest)
    | l => (false, l)
  if core.snd ≠ [] ∧ core.snd.all Char.isDigit then
    some ((if core.fst then -1 else 1) * Int.ofNat (chars_to_nat core.snd))
  else
    none

/-! ## The asset classifier (`core/processor.py`) -/

/-- Embedding of `DEFAULT_PATTERNS` from `core/processor.py`. -/
def DEFAULT_PATTERNS : List String :=
  ["legacy", "old", "dev", "test", "staging", "portal", "webmail",
   "owa", "vpn", "remote", "admin", "training"]

/-- Embedding of `FALSE_POSITIVES` from `core/processor.py` (a Python set; order is
irrelevant, only membership is used). -/
def FALSE_POSITIVES : List String := ["devens", "medevac", "peoavn"]

/-- Python `domain.replace("-", ".")`: single-character replacement is a
character map. -/
def replace_dashes (cs : List Char) : List Char :=
  cs.map (fun c => if c = '-' then '.' else c)

/-- Python `str.split(sep)` for a single-character separator `sep`
(keeps empty components, `"".split(sep) = [""]`). -/
def split_char (sep : Char → Bool) : List Char → List (List Char)
  | [] => [[]]
  | c :: cs =>
    if sep c then [] :: split_char sep cs
    else (c :: (split_char sep cs).headI) :: (split_char sep cs).tail

/-- Python `domain.replace("-", ".").split(".")`'s split step. -/
def split_on_dot (cs : List Char) : List (List Char) :=
  split_char (fun c => c = '.') cs

/-- Embedding of `_matches_pattern` from `core/processor.py`:
`pattern in domain.replace("-", ".").split(".")`. -/
def matches_pattern (domain pattern : String) : Bool :=
  (split_on_dot (replace_dashes domain.data)).contains pattern.data

/-- Embedding of `_is_false_positive` from `core/processor.py`. -/
def is_false_positive (domain : String) : Bool :=
  FALSE_POSITIVES.any (fun fp => has_sub fp domain)

/-- Modelled from the spec (§4.5/§8): the components of a domain
obtained by splitting on both `'.'` and `'-'`; used as the
specification-side statement of the component-matching rule, to be
compared with `matches_pattern` above. -/
def spec_components (cs : List Char) : List (List Char) :=
  split_char (fun c => c = '.' || c = '-') cs

/-- Embedding of `Processor._dedupe`'s loop (`seen` set as a list). -/
def dedupe_go (seen : List String) : List Asset → List Asset
  | [] => []
  | a :: rest =>
    if seen.contains a.domain then dedupe_go seen rest
    else a :: dedupe_go (a.domain :: seen) rest

/-- Embedding of `Processor._dedupe`. -/
def dedupe (assets : List Asset) : List Asset := dedupe_go [] assets

/-- Embedding of `Processor._tag`'s per-asset effect: append every default pattern
that matches, unless the domain is a known false positive. -/
def tag_asset (a : Asset) : Asset :=
  if is_false_positive a.domain then a
  else { a with tags := a.tags ++ DEFAULT_PATTERNS.filter (fun p => matches_pattern a.domain p) }

/-- Embedding of `Processor._tag`. -/
def tag_assets (assets : List Asset) : List Asset := assets.map tag_asset

/-- Embedding of `Processor._filter`: keep assets (that are not false positives)
matching at least one user filter pattern. -/
def filter_assets (filters : List String) (assets : List Asset) : List Asset :=
  assets.filter (fun a =>
    !is_false_positive a.domain && filters.any (fun f => matches_pattern a.domain f))

/-! ## The technology fingerprint engine and HTTP prober
(`core/prober.py`) -/

/-- The `server` entries of `HEADER_FINGERPRINTS`. -/
def SERVER_PATTERNS : List (String × String) :=
  [("apache", "Apache"),
   ("nginx", "Nginx"),
   ("microsoft-iis/(\\d+\\.?\\d*)", "IIS/{0}"),
   ("cloudflare", "Cloudflare"),
   ("akamai", "Akamai"),
   ("tomcat", "Apache Tomcat"),
   ("jetty", "Jetty"),
   ("lighttpd", "Lighttpd"),
   ("openresty", "OpenResty"),
   ("gunicorn", "Gunicorn"),
   ("werkzeug", "Werkzeug")]

/-- Embedding of `HEADER_FINGERPRINTS` from `core/prober.py`: header name → ordered
list of (regex pattern, label template) pairs. -/
def HEADER_FINGERPRINTS : List (String × List (String × String)) :=
  [("server", SERVER_PATTERNS),
   ("x-powered-by",
    [("php/?([\\d.]*)", "PHP/{0}"),
     ("asp\\.?net", "ASP.NET"),
     ("express", "Express.js"),
     ("servlet", "Java Servlet"),
     ("jsp", "JSP"),
     ("coldfusion", "ColdFusion"),
     ("perl", "Perl"),
     ("python", "Python"),
     ("ruby", "Ruby"),
     ("next\\.js", "Next.js")]),
   ("x-aspnet-version", [("([\\d.]+)", "ASP.NET/{0}")]),
   ("x-aspnetmvc-version", [("([\\d.]+)", "ASP.NET MVC/{0}")]),
   ("x-generator",
    [("drupal", "Drupal"), ("wordpress", "WordPress"), ("joomla", "Joomla")]),
   ("x-drupal-cache", [(".*", "Drupal")]),
   ("x-varnish", [(".*", "Varnish")]),
   ("x-cache", [(".*", "CDN/Cache")]),
   ("via",
    [("varnish", "Varnish"), ("cloudfront", "CloudFront"), ("squid", "Squid")])]

/-- Embedding of `BODY_FINGERPRINTS` from `core/prober.py`. -/
def BODY_FINGERPRINTS : List (String × String) :=
  [("<meta[^>]+generator[^>]+wordpress", "WordPress"),
   ("<meta[^>]+generator[^>]+drupal", "Drupal"),
   ("<meta[^>]+generator[^>]+joomla", "Joomla"),
   ("wp-content/", "WordPress"),
   ("sites/default/files", "Drupal"),
   ("SharePoint", "SharePoint"),
   ("/_layouts/", "SharePoint"),
   ("Confluence", "Confluence"),
   ("JSESSIONID", "Java"),
   ("__VIEWSTATE", "ASP.NET"),
   ("csrftoken.*django", "Django"),
   ("laravel_session", "Laravel"),
   ("ci_session", "CodeIgniter")]

/-- Embedding of `INTERESTING_HEADERS` from `core/prober.py`. -/
def INTERESTING_HEADERS : List String :=
  ["server", "x-powered-by", "x-aspnet-version", "x-aspnetmvc-version",
   "x-generator", "x-drupal-cache", "x-varnish", "x-cache", "via",
   "x-frame-options", "x-xss-protection", "x-content-type-options",
   "content-security-policy", "strict-transport-security",
   "www-authenticate", "set-cookie"]

/-- Python dict lookup on an association list of headers. -/
def lookup_header (hs : List (String × String)) (k : String) : Option String :=
  (hs.find? (fun kv => kv.fst = k)).map (fun kv => kv.snd)

/-- The label-formatting step of `_detect_technologies` (prober.py lines
131-136): substitute `match.group(1)` into a `{0}` template when
`match.groups()` is (truthy, i.e.) nonempty; with an empty `groups()`
drop the `/{0}` placeholder; templates without `{0}` pass through. -/
def format_tech (tech_name : String) (groups : List String) : String :=
  if has_sub "{0}" tech_name then
    match groups with
    | g :: _ => str_replace tech_name "{0}" g
    | [] => str_replace tech_name "/{0}" ""
  else tech_name

/-- Insert into a sorted duplicate-free list of strings. -/
def ins_sorted (x : String) : List String → List String
  | [] => [x]
  | y :: ys =>
    if x = y then y :: ys
    else if x < y then x :: y :: ys
    else y :: ins_sorted x ys

/-- Python `sorted(set(l))`: sorted, duplicate-free. -/
def sorted_dedup (l : List String) : List String := l.foldr ins_sorted []

/-- The inner loop of `_detect_technologies`' header pass: try the
(pattern, template) pairs of one header against its (lowercased)
value, appending each formatted label.  `re_search p v` abstracts
`re.search(p, v, re.IGNORECASE)`, returning `match.groups()` on a
match. -/
def header_pat_fold (re_search : String → String → Option (List String))
    (header_value : String) (pats : List (String × String))
    (acc : List String) : List String :=
  pats.foldl
    (fun acc2 pt =>
      match re_search pt.fst header_value with
      | some groups => acc2 ++ [format_tech pt.snd groups]
      | none => acc2)
    acc

/-- The outer loop of `_detect_technologies`' header pass over the
fingerprint table (skipping absent/empty headers). -/
def header_table_fold (re_search : String → String → Option (List String))
    (headers : List (String × String))
    (table : List (String × List (String × String)))
    (acc : List String) : List String :=
  table.foldl
    (fun acc entry =>
      let header_value := to_lower ((lookup_header headers entry.fst).getD "")
      if header_value = "" then acc
      else header_pat_fold re_search header_value entry.snd acc)
    acc

/-- The header-signature pass of `_detect_technologies`, collecting
matched labels in match order (the caller sort-dedups, so order is
irrelevant). -/
def header_techs (re_search : String → String → Option (List String))
    (headers : List (String × String)) : List String :=
  header_table_fold re_search headers HEADER_FINGERPRINTS []

/-- The cookie-signature pass of `_detect_technologies`. -/
def cookie_techs (headers : List (String × String)) : List String :=
  let cookies := to_lower ((lookup_header headers "set-cookie").getD "")
  (if has_sub "phpsessid" cookies then ["PHP"] else []) ++
  (if has_sub "jsessionid" cookies then ["Java"] else []) ++
  (if has_sub "asp.net" cookies || has_sub "aspxauth" cookies then ["ASP.NET"] else []) ++
  (if has_sub "laravel" cookies then ["Laravel"] else [])

/-- The body-signature pass of `_detect_technologies` (first 50 000
characters, lowercased). -/
def body_techs (re_search : String → String → Option (List String))
    (body : String) : List String :=
  let body_sample := to_lower (py_truncate 50000 body)
  BODY_FINGERPRINTS.foldl
    (fun acc pt =>
      match re_search pt.fst body_sample with
      | some _ => acc ++ [pt.snd]
      | none => acc)
    []

/-- Embedding of `_detect_technologies` from `core/prober.py`: the union of the three
passes as a sorted duplicate-free list (Python `sorted(set)`). -/
def detect_technologies (re_search : String → String → Option (List String))
    (headers : List (String × String)) (body : String) : List String :=
  sorted_dedup (header_techs re_search headers ++ cookie_techs headers ++
    body_techs re_search body)

/-- Embedding of `_extract_title` from `core/prober.py`: `title_group body` abstracts
`re.search(r"<title[^>]*>([^<]+)</title>", body, re.IGNORECASE)`,
returning `match.group(1)` (the pattern has exactly one group, so a
match always yields one). -/
def extract_title (title_group : String → Option String) (body : String) :
    Option String :=
  (title_group body).map (fun g => py_truncate 200 (py_strip g))

/-- Embedding of `_filter_headers` from `core/prober.py`. -/
def filter_headers (headers : List (String × String)) : List (String × String) :=
  headers.filter (fun kv => INTERESTING_HEADERS.contains (to_lower kv.fst))

/-- A completed `requests.get` response: status code, final URL after
redirects (`response.url`), raw headers, body text (`response.text`,
with read failures already collapsed to `""` by the inner
`try`/`except`). -/
structure HttpResponse where
  status_code : Nat
  url : String
  headers : List (String × String)
  body : String
deriving DecidableEq

/-- Outcome of one `requests.get` call: a response, or one of the
exception classes that `probe_url`'s `except` clauses distinguish,
carrying `str(e)`. -/
inductive NetOutcome where
  | success (resp : HttpResponse)
  | timeout
  | connectionError (msg : String)
  | sslError (msg : String)
  | otherError (msg : String)
deriving DecidableEq

/-- Whether the request never completed (any `except` branch). -/
def NetOutcome.isFailure : NetOutcome → Bool
  | .success _ => false
  | _ => true

/-- The external world of one run: DNS, network, wall clock and the
`re` engine, abstracted as oracle functions. -/
structure Env where
  resolve : String → Option String
  net : String → Nat → Bool → NetOutcome
  elapsed_ms : String → Nat
  re_search : String → String → Option (List String)
  title_group : String → Option String

/-- The failure result records of `probe_url` (all four `except`
branches build exactly this shape). -/
def probe_failure (url : String) (err : String) (elapsed : Nat) : HttpProbeResult :=
  { url := url
    status_code := 0
    tls := "https://".data.isPrefixOf url.data
    error := some err
    duration_ms := some elapsed }

/-- Embedding of `probe_url` from `core/prober.py`.  The `requests.get` call is
`env.net url timeout follow_redirects`; `env.elapsed_ms url` is the
measured wall-clock duration.  The `int(headers.get("content-length", 0))`
call raises `ValueError` on a malformed header, which the trailing
`except Exception` turns into an `unknown:` failure result. -/
def probe_url (env : Env) (url : String) (timeout : Nat := 30)
    (follow_redirects : Bool := true) : HttpProbeResult :=
  let elapsed := env.elapsed_ms url
  match env.net url timeout follow_redirects with
  | .success resp =>
    let body := py_truncate 100000 resp.body
    let headers := resp.headers.map (fun kv => (to_lower kv.fst, kv.snd))
    match lookup_header headers "content-length" with
    | some s =>
      (match py_int s with
       | some v =>
         { url := url
           status_code := resp.status_code
           final_url := if resp.url = url then none else some resp.url
           headers := filter_headers headers
           technologies := detect_technologies env.re_search headers body
           server := lookup_header headers "server"
           title := extract_title env.title_group body
           content_length := if v = 0 then none else some v
           tls := "https://".data.isPrefixOf url.data
           error := none
           duration_ms := some elapsed }
       | none =>
         -- int() raised; the message is Python's ValueError text
         -- (modelled without its quoted literal)
         probe_failure url ("unknown: " ++ py_truncate 100 "invalid literal for int with base 10") elapsed)
    | none =>
      { url := url
        status_code := resp.status_code
        final_url := if resp.url = url then none else some resp.url
        headers := filter_headers headers
        technologies := detect_technologies env.re_search headers body
        server := lookup_header headers "server"
        title := extract_title env.title_group body
        content_length := none
        tls := "https://".data.isPrefixOf url.data
        error := none
        duration_ms := some elapsed }
  | .timeout => probe_failure url "timeout" elapsed
  | .connectionError msg =>
    let error_msg :=
      if has_sub "Name or service not known" msg then "dns_failed"
      else if has_sub "Connection refused" msg then "connection_refused"
      else if has_sub "Network is unreachable" msg then "network_unreachable"
      else "connection_refused"
    probe_failure url error_msg elapsed
  | .sslError msg =>
    probe_failure url ("ssl_error: " ++ py_truncate 100 msg) elapsed
  | .otherError msg =>
    probe_failure url ("unknown: " ++ py_truncate 100 msg) elapsed

/-- Embedding of `probe_domain` from `core/prober.py`: one HTTP and one HTTPS probe
against the bare domain.  `probe_url` never returns `None`, so both
components are `some`. -/
def probe_domain (env : Env) (domain : String) (timeout : Nat := 30) :
    Option HttpProbeResult × Option HttpProbeResult :=
  (some (probe_url env ("http://" ++ domain) timeout),
   some (probe_url env ("https://" ++ domain) timeout))

/-! ## The liveness & probing pipeline (`Processor._check_live`,
`Processor.process`) -/

/-- The `Processor` configuration (`Processor.__init__`). -/
structure ProcessorCfg where
  filters : List String
  check_liveness : Bool
  probe_http : Bool
  show_progress : Bool
  verbose : Bool
deriving DecidableEq

/-- Observable side-channel events of one pipeline run: progress
callbacks (the 4-tuple the callback receives), the final summary,
verbose log lines, and the DNS/probe calls actually issued. -/
inductive Event where
  | progress (current total : Nat) (domain status : String)
  | progress_complete (total live dead : Nat)
  | verbose_log (msg : String)
  | resolve_call (domain : String)
  | probe_call (url : String)
deriving DecidableEq

/-- Python truthiness of an `Optional[str]`. -/
def py_truthy_str : Option String → Bool
  | some s => s ≠ ""
  | none => false

/-- Python `f"{x}"` for an `Optional[int]`. -/
def py_show_opt_nat : Option Nat → String
  | some n => py_str_nat n
  | none => "None"

/-- One verbose probe-outcome line of `_check_live` (lines 185-198 of
processor.py), for protocol name `proto`. -/
def verbose_probe_line (proto : String) (r : HttpProbeResult) : String :=
  if py_truthy_str r.error then
    "  " ++ proto ++ ": " ++ r.error.getD "" ++ " (" ++ py_show_opt_nat r.duration_ms ++ "ms)"
  else
    let redirect_info :=
      if py_truthy_str r.final_url then " -> " ++ r.final_url.getD "" else ""
    let tech_info :=
      if r.technologies.isEmpty then "" else " [" ++ py_join ", " r.technologies ++ "]"
    "  " ++ proto ++ ": " ++ py_str_nat r.status_code ++ redirect_info ++ tech_info ++
      " (" ++ py_show_opt_nat r.duration_ms ++ "ms)"

/-- The `status_parts` contribution of one probe result (lines 201-216
of processor.py). -/
def status_parts_for (r : Option HttpProbeResult) (proto : String) : List String :=
  match r with
  | some res =>
    if py_truthy_str res.error then [proto ++ ":" ++ res.error.getD ""]
    else
      let tech_str :=
        if res.technologies.isEmpty then "" else py_join "," (res.technologies.take 3)
      [proto ++ ":" ++ py_str_nat res.status_code] ++
        (if tech_str ≠ "" then ["[" ++ tech_str ++ "]"] else [])
  | none => []

/-- The verbose log events for a probe pair (https reported first, as
in processor.py lines 184-198). -/
def verbose_probe_events (http_result https_result : Option HttpProbeResult) :
    List Event :=
  (match https_result with
   | some r => [Event.verbose_log (verbose_probe_line "https" r)]
   | none => []) ++
  (match http_result with
   | some r => [Event.verbose_log (verbose_probe_line "http" r)]
   | none => [])

/-- The progress status string after probing (`" ".join(status_parts)
or "live"`). -/
def probe_status_string (http_result https_result : Option HttpProbeResult) : String :=
  let s := py_join " " (status_parts_for https_result "https" ++
    status_parts_for http_result "http")
  if s = "" then "live" else s

/-- One iteration of `Processor._check_live`'s loop: the updated asset,
the events it emits (in order), and whether it counted as live. -/
def check_live_asset (cfg : ProcessorCfg) (env : Env) (i total : Nat)
    (asset : Asset) : Asset × List Event × Bool :=
  let domain := asset.domain
  let ev0 := (if cfg.show_progress then [Event.progress i total domain "resolving..."] else []) ++
    [Event.resolve_call domain]
  match env.resolve domain with
  | some ip =>
    if cfg.probe_http then
      let pr := probe_domain env domain
      ({ asset with ip := some ip, live := some true, http := pr.fst, https := pr.snd },
       ev0 ++
         (if cfg.verbose then [Event.verbose_log (domain ++ " -> " ++ ip)] else []) ++
         (if cfg.show_progress then [Event.progress i total domain "probing http..."] else []) ++
         [Event.probe_call ("http://" ++ domain), Event.probe_call ("https://" ++ domain)] ++
         (if cfg.verbose then verbose_probe_events pr.fst pr.snd else []) ++
         (if cfg.show_progress then
            [Event.progress i total domain (probe_status_string pr.fst pr.snd)]
          else []),
       true)
    else
      ({ asset with ip := some ip, live := some true },
       ev0 ++
         (if cfg.verbose then [Event.verbose_log (domain ++ " -> " ++ ip)] else []) ++
         (if cfg.show_progress then [Event.progress i total domain ("live (" ++ ip ++ ")")] else []),
       true)
  | none =>
    ({ asset with live := some false },
     ev0 ++
       (if cfg.show_progress then [Event.progress i total domain "dead"] else []) ++
       (if cfg.verbose then [Event.verbose_log (domain ++ " -> DNS failed")] else []),
     false)

/-- Embedding of `Processor._check_live`'s loop over the asset list, carrying
`enumerate(assets, 1)`'s index and the live/dead counters. -/
def check_live_go (cfg : ProcessorCfg) (env : Env) (total : Nat) :
    Nat → Nat → Nat → List Asset → List Asset × List Event × Nat × Nat
  | _, live_count, dead_count, [] => ([], [], live_count, dead_count)
  | i, live_count, dead_count, a :: rest =>
    let r := check_live_asset cfg env i total a
    let rec_r := check_live_go cfg env total (i + 1)
      (if r.snd.snd then live_count + 1 else live_count)
      (if r.snd.snd then dead_count else dead_count + 1) rest
    (r.fst :: rec_r.fst, r.snd.fst ++ rec_r.snd.fst, rec_r.snd.snd)

/-- Embedding of `Processor._check_live`: process all assets, then emit the
completion summary when progress is shown. -/
def check_live (cfg : ProcessorCfg) (env : Env) (assets : List Asset) :
    List Asset × List Event :=
  let total := assets.length
  let r := check_live_go cfg env total 1 0 0 assets
  (r.fst,
   r.snd.fst ++
     (if cfg.show_progress then
        [Event.progress_complete total r.snd.snd.fst r.snd.snd.snd]
      else []))

/-- Embedding of `Processor.process`: dedupe → tag → (filter) → (liveness/probe). -/
def process (cfg : ProcessorCfg) (env : Env) (assets : List Asset) :
    List Asset × List Event :=
  let a1 := dedupe assets
  let a2 := tag_assets a1
  let a3 := if cfg.filters.isEmpty then a2 else filter_assets cfg.filters a2
  if cfg.check_liveness || cfg.probe_http then check_live cfg env a3
  else (a3, [])

/-! ## Timestamps: `datetime.isoformat()` and the pydantic JSON
rendering, with the corresponding parser -/

/-- Zero-padded decimal rendering (Python `%04d`-style padding used by
`datetime.isoformat`). -/
def pad_chars (w n : Nat) : List Char :=
  List.replicate (w - (nat_chars n).length) '0' ++ nat_chars n

/-- The characters of an ISO-8601 rendering of a UTC datetime with the
given timezone suffix; microseconds are printed (6 digits) only when
nonzero, as Python does. -/
def iso_chars (d : DateTime) (suffix : List Char) : List Char :=
  pad_chars 4 d.year ++ '-' :: (pad_chars 2 d.month ++ '-' :: (pad_chars 2 d.day ++
    'T' :: (pad_chars 2 d.hour ++ ':' :: (pad_chars 2 d.minute ++ ':' ::
      (pad_chars 2 d.second ++
        (if d.microsecond = 0 then [] else '.' :: pad_chars 6 d.microsecond) ++
        suffix)))))

/-- Python `datetime.isoformat()` for a `timezone.utc`-aware value
(used by the CSV output): suffix `+00:00`. -/
def isoformat (d : DateTime) : String := ⟨iso_chars d ['+', '0', '0', ':', '0', '0']⟩

/-- The pydantic-v2 `model_dump_json` rendering of a UTC datetime:
suffix `Z`. -/
def iso_json (d : DateTime) : String := ⟨iso_chars d ['Z']⟩

/-- Read a maximal nonempty run of decimal digits. -/
def read_nat (cs : List Char) : Option (Nat × List Char) :=
  let ds := cs.takeWhile Char.isDigit
  if ds.isEmpty then none else some (chars_to_nat ds, cs.dropWhile Char.isDigit)

/-- Expect a literal character. -/
def expect_char (c : Char) : List Char → Option (List Char)
  | x :: xs => if x = c then some xs else none
  | [] => none

/-- Accepted UTC timezone suffixes (`Z` as emitted by pydantic,
`+00:00` as emitted by `isoformat`). -/
def tz_ok (cs : List Char) : Bool := cs = ['Z'] || cs = ['+', '0', '0', ':', '0', '0']

/-- Read a number followed by a literal separator character. -/
def parse_num_sep (c : Char) (cs : List Char) : Option (Nat × List Char) := do
  let (n, r) ← read_nat cs
  let r2 ← expect_char c r
  pure (n, r2)

/-- Parse the optional fractional-second part and the timezone
suffix. -/
def parse_tail (cs : List Char) : Option Nat :=
  match cs with
  | '.' :: rest => do
    let (mic, r) ← read_nat rest
    if tz_ok r then pure mic else none
  | _ => if tz_ok cs then pure 0 else none

/-- The ISO-8601 datetime parsing pydantic performs when validating a
`datetime` field (restricted to the UTC forms the serializers above
emit). -/
def iso_parse (s : String) : Option DateTime := do
  let (y, r1) ← parse_num_sep '-' s.data
  let (mo, r2) ← parse_num_sep '-' r1
  let (da, r3) ← parse_num_sep 'T' r2
  let (h, r4) ← parse_num_sep ':' r3
  let (mi, r5) ← parse_num_sep ':' r4
  let (sec, r6) ← read_nat r5
  let mic ← parse_tail r6
  pure ⟨y, mo, da, h, mi, sec, mic⟩

/-! ## The CSV output (`outputs/csv.py`) -/

/-- Python `str(b)` for a bool. -/
def py_str_bool (b : Bool) : String := if b then "True" else "False"

/-- The row `CsvOutput.write` writes for one asset, in `fieldnames`
order (domain, source, discovered_at, ip, org, tags, live,
https_status, http_status, server, technologies, title); the `csv`
module renders `None` cells as the empty string. -/
def csv_row (a : Asset) : List String :=
  let probe := a.https.orElse (fun _ => a.http)
  [a.domain,
   a.source,
   isoformat a.discovered_at,
   a.ip.getD "",
   a.org.getD "",
   py_join "," a.tags,
   (match a.live with | none => "" | some b => py_str_bool b),
   (match a.https with | some p => py_str_nat p.status_code | none => ""),
   (match a.http with | some p => py_str_nat p.status_code | none => ""),
   (match probe with | some p => p.server.getD "" | none => ""),
   (match probe with | some p => py_join "," p.technologies | none => ""),
   (match probe with | some p => p.title.getD "" | none => "")]

/-! ## The JSON output (`outputs/json.py`) and the asset loader
(`cli.load_assets_from_file`), at the JSON-value level (the byte-level
encode/decode is the Python `json`/pydantic-core library) -/

/-- JSON values (the subset the serializers emit: numbers are ints). -/
inductive Json where
  | null
  | bool (b : Bool)
  | num (n : Int)
  | str (s : String)
  | arr (items : List Json)
  | obj (fields : List (String × Json))

/-- Embedding of `null` for `None`, otherwise the serialization of the value. -/
def opt_json {α : Type} (f : α → Json) : Option α → Json
  | none => Json.null
  | some x => f x

/-- Embedding of `HttpProbeResult.model_dump_json` as a JSON value (fields in
declaration order, `None` as `null`). -/
def probe_to_json (p : HttpProbeResult) : Json :=
  .obj [("url", .str p.url),
        ("status_code", .num p.status_code),
        ("final_url", opt_json Json.str p.final_url),
        ("headers", .obj (p.headers.map (fun kv => (kv.fst, Json.str kv.snd)))),
        ("technologies", .arr (p.technologies.map Json.str)),
        ("server", opt_json Json.str p.server),
        ("title", opt_json Json.str p.title),
        ("content_length", opt_json Json.num p.content_length),
        ("tls", .bool p.tls),
        ("error", opt_json Json.str p.error),
        ("duration_ms", opt_json (fun n : Nat => Json.num (n : Int)) p.duration_ms)]

/-- Embedding of `Asset.model_dump_json` as a JSON value. -/
def asset_to_json (a : Asset) : Json :=
  .obj [("domain", .str a.domain),
        ("source", .str a.source),
        ("discovered_at", .str (iso_json a.discovered_at)),
        ("ip", opt_json Json.str a.ip),
        ("org", opt_json Json.str a.org),
        ("cert_issued", opt_json (fun d => Json.str (iso_json d)) a.cert_issued),
        ("cert_expires", opt_json (fun d => Json.str (iso_json d)) a.cert_expires),
        ("tags", .arr (a.tags.map Json.str)),
        ("live", opt_json Json.bool a.live),
        ("http", opt_json probe_to_json a.http),
        ("https", opt_json probe_to_json a.https)]

/-- Embedding of `JsonOutput.write`:
`"[" + ",".join(a.model_dump_json() for a in assets) + "]"` is exactly
the serialization of this JSON array. -/
def write_json (assets : List Asset) : Json := Json.arr (assets.map asset_to_json)

/-- Python dict lookup on a JSON object's fields. -/
def json_lookup (fields : List (String × Json)) (k : String) : Option Json :=
  (fields.find? (fun kv => kv.fst = k)).map (fun kv => kv.snd)

/-- pydantic validation of a `str` field. -/
def as_str : Json → Option String
  | .str s => some s
  | _ => none

/-- pydantic validation of a `bool` field. -/
def as_bool : Json → Option Bool
  | .bool b => some b
  | _ => none

/-- pydantic validation of a nonnegative `int` field. -/
def as_nat : Json → Option Nat
  | .num n => if n < 0 then none else some n.toNat
  | _ => none

/-- pydantic validation of an `int` field. -/
def as_int : Json → Option Int
  | .num n => some n
  | _ => none

/-- pydantic validation of a `datetime` field. -/
def as_dt : Json → Option DateTime
  | .str s => iso_parse s
  | _ => none

/-- pydantic validation of an `Optional[...]` field: `null` becomes
`None`. -/
def as_opt {α : Type} (f : Json → Option α) : Json → Option (Option α)
  | .null => some none
  | j => (f j).map some

/-- pydantic validation of a `list[str]` field. -/
def as_str_list : Json → Option (List String)
  | .arr l => l.mapM as_str
  | _ => none

/-- pydantic validation of a `dict[str, str]` field. -/
def as_str_pairs : Json → Option (List (String × String))
  | .obj kvs => kvs.mapM (fun kv => (as_str kv.snd).map (fun v => (kv.fst, v)))
  | _ => none

/-- A model field with a default: a missing key validates to the
default. -/
def field_opt {α : Type} (kvs : List (String × Json)) (k : String)
    (f : Json → Option α) (dflt : α) : Option α :=
  match json_lookup kvs k with
  | none => some dflt
  | some v => f v

/-- A required model field: missing key is a validation error. -/
def field_req {α : Type} (kvs : List (String × Json)) (k : String)
    (f : Json → Option α) : Option α :=
  (json_lookup kvs k).bind f

/-- Embedding of `HttpProbeResult(**item)`: pydantic validation of a probe result. -/
def probe_of_json : Json → Option HttpProbeResult
  | .obj kvs => do
    let url ← field_req kvs "url" as_str
    let status_code ← field_req kvs "status_code" as_nat
    let final_url ← field_opt kvs "final_url" (as_opt as_str) none
    let headers ← field_opt kvs "headers" as_str_pairs []
    let technologies ← field_opt kvs "technologies" as_str_list []
    let server ← field_opt kvs "server" (as_opt as_str) none
    let title ← field_opt kvs "title" (as_opt as_str) none
    let content_length ← field_opt kvs "content_length" (as_opt as_int) none
    let tls ← field_opt kvs "tls" as_bool false
    let error ← field_opt kvs "error" (as_opt as_str) none
    let duration_ms ← field_opt kvs "duration_ms" (as_opt as_nat) none
    some { url := url, status_code := status_code, final_url := final_url,
           headers := headers, technologies := technologies, server := server,
           title := title, content_length := content_length, tls := tls,
           error := error, duration_ms := duration_ms }
  | _ => none

/-- Embedding of `Asset(**item)`: pydantic validation of an asset (missing
`discovered_at` falls back to the `default_factory`, i.e. `now`). -/
def asset_of_json (now : DateTime) : Json → Option Asset
  | .obj kvs => do
    let domain ← field_req kvs "domain" as_str
    let source ← field_req kvs "source" as_str
    let discovered_at ← field_opt kvs "discovered_at" as_dt now
    let ip ← field_opt kvs "ip" (as_opt as_str) none
    let org ← field_opt kvs "org" (as_opt as_str) none
    let cert_issued ← field_opt kvs "cert_issued" (as_opt as_dt) none
    let cert_expires ← field_opt kvs "cert_expires" (as_opt as_dt) none
    let tags ← field_opt kvs "tags" as_str_list []
    let live ← field_opt kvs "live" (as_opt as_bool) none
    let http ← field_opt kvs "http" (as_opt probe_of_json) none
    let https ← field_opt kvs "https" (as_opt probe_of_json) none
    some { domain := domain, source := source, discovered_at := discovered_at,
           ip := ip, org := org, cert_issued := cert_issued,
           cert_expires := cert_expires, tags := tags, live := live,
           http := http, https := https }
  | _ => none

/-- One item of `load_assets_from_file`: full `Asset` format when
`discovered_at` is present, otherwise the simplified format. -/
def load_item (now : DateTime) (item : Json) : Option Asset :=
  match item with
  | .obj kvs =>
    if (json_lookup kvs "discovered_at").isSome then asset_of_json now (.obj kvs)
    else do
      let domain ← field_req kvs "domain" as_str
      let source ← field_opt kvs "source" as_str "file"
      let ip ← field_opt kvs "ip" (as_opt as_str) none
      let live ← field_opt kvs "live" (as_opt as_bool) none
      let tags ← field_opt kvs "tags" as_str_list []
      some { domain := domain, source := source, discovered_at := now,
             ip := ip, live := live, tags := tags }
  | _ => none

/-- Embedding of `load_assets_from_file` on the parsed JSON document. -/
def load_assets (now : DateTime) : Json → Option (List Asset)
  | .arr items => items.mapM (load_item now)
  | _ => none

/-! ## Specification-side predicates and concrete fixtures -/

/-- The spec's failure classification (§4.2): `timeout`, `dns_failed`,
`connection_refused`, `network_unreachable`, `ssl_error: <detail
truncated to 100 chars>`, `unknown: <detail truncated to 100 chars>`. -/
def classified_error (s : String) : Prop :=
  s = "timeout" ∨ s = "dns_failed" ∨ s = "connection_refused" ∨
  s = "network_unreachable" ∨
  (∃ detail, s = "ssl_error: " ++ detail ∧ detail.length ≤ 100) ∨
  (∃ detail, s = "unknown: " ++ detail ∧ detail.length ≤ 100)

/-- A response delivered by the `requests` library carries a genuine
(positive) HTTP status code. -/
def valid_outcome : NetOutcome → Prop
  | .success resp => 0 < resp.status_code
  | _ => True

/-- A fixed timestamp for concrete fixtures. -/
def epoch : DateTime := ⟨1970, 1, 1, 0, 0, 0, 0⟩

/-- A fresh asset as a source adapter creates it. -/
def mk_asset (d : String) : Asset :=
  { domain := d, source := "crtsh", discovered_at := epoch }

/-- Oracle world where DNS never resolves and every request times
out. -/
def env_timeout : Env :=
  { resolve := fun _ => none
    net := fun _ _ _ => .timeout
    elapsed_ms := fun _ => 7
    re_search := fun _ _ => none
    title_group := fun _ => none }

/-- Oracle world where DNS always resolves (requests still time
out). -/
def env_live : Env := { env_timeout with resolve := fun _ => some "10.0.0.1" }

/-- A regex oracle in which only the IIS server pattern matches (on the
lowercased value `microsoft-iis/10.0`), capturing version `10.0`. -/
def iis_search : String → String → Option (List String) := fun p v =>
  if p = "microsoft-iis/(\\d+\\.?\\d*)" ∧ v = "microsoft-iis/10.0" then some ["10.0"]
  else none

/-- Processor configuration with liveness and probing enabled. -/
def cfg_probe : ProcessorCfg :=
  { filters := [], check_liveness := true, probe_http := true,
    show_progress := true, verbose := true }

/-- Processor configuration for the classification end-to-end check:
filter pattern `dev`, no liveness. -/
def cfg_filter_dev : ProcessorCfg :=
  { filters := ["dev"], check_liveness := false, probe_http := false,
    show_progress := false, verbose := false }

/-- An https probe result that failed (no server signal). -/
def probe_https_err : HttpProbeResult :=
  { url := "https://x.mil", status_code := 0, tls := true,
    error := some "timeout", duration_ms := some 3 }

/-- An http probe result that succeeded with a `Server` header. -/
def probe_http_apache : HttpProbeResult :=
  { url := "http://x.mil", status_code := 200, server := some "Apache",
    duration_ms := some 3 }

/-- A live asset whose https probe failed but whose http probe saw
`Server: Apache`. -/
def csv_asset : Asset :=
  { mk_asset "x.mil" with
    live := some true
    https := some probe_https_err
    http := some probe_http_apache }

/-! ## Theorems -/

theorem py_truncate_length_le (n : Nat) (s : String) :
    (py_truncate n s).length ≤ n :=
  s.data.length_take_le n

theorem prefixed_ne_empty (a b : String) (h : a.data ≠ []) : a ++ b ≠ "" := by
  intro hc
  apply h
  have hd := congrArg String.data hc
  rw [String.data_append] at hd
  exact (List.append_eq_nil.mp hd).1

/-- C1: `probe_url` is total — for every url, timeout and redirect flag
(and every outcome of the underlying request) it returns a
`HttpProbeResult` for that url rather than raising — and whenever the
request never completes, the result has `status_code = 0` and a
non-empty error string drawn from the spec's classification
categories. -/
theorem probe_url_total_and_classified (env : Env) (url : String)
    (timeout : Nat) (follow_redirects : Bool) :
    (probe_url env url timeout follow_redirects).url = url ∧
    ((env.net url timeout follow_redirects).isFailure = true →
      (probe_url env url timeout follow_redirects).status_code = 0 ∧
      ∃ s, (probe_url env url timeout follow_redirects).error = some s ∧
        s ≠ "" ∧ classified_error s) := by
  cases h : env.net url timeout follow_redirects with
  | success resp =>
    constructor
    · simp only [probe_url, h]
      split
      · split <;> simp [probe_failure]
      · simp
    · intro hf
      simp [NetOutcome.isFailure] at hf
  | timeout =>
    refine ⟨by simp [probe_url, h, probe_failure], fun _ => ⟨by simp [probe_url, h, probe_failure], "timeout", by simp [probe_url, h, probe_failure], by decide, Or.inl rfl⟩⟩
  | connectionError msg =>
    refine ⟨by simp [probe_url, h, probe_failure], fun _ => ⟨by simp [probe_url, h, probe_failure], ?_⟩⟩
    simp only [probe_url, h, probe_failure]
    by_cases h1 : has_sub "Name or service not known" msg = true
    · exact ⟨"dns_failed", by simp [h1], by decide, Or.inr (Or.inl rfl)⟩
    · by_cases h2 : has_sub "Connection refused" msg = true
      · exact ⟨"connection_refused", by simp [h1, h2], by decide, Or.inr (Or.inr (Or.inl rfl))⟩
      · by_cases h3 : has_sub "Network is unreachable" msg = true
        · exact ⟨"network_unreachable", by simp [h1, h2, h3], by decide,
            Or.inr (Or.inr (Or.inr (Or.inl rfl)))⟩
        · exact ⟨"connection_refused", by simp [h1, h2, h3], by decide,
            Or.inr (Or.inr (Or.inl rfl))⟩
  | sslError msg =>
    refine ⟨by simp [probe_url, h, probe_failure], fun _ =>
      ⟨by simp [probe_url, h, probe_failure],
       "ssl_error: " ++ py_truncate 100 msg,
       by simp [probe_url, h, probe_failure],
       prefixed_ne_empty _ _ (by decide),
       Or.inr (Or.inr (Or.inr (Or.inr (Or.inl ⟨py_truncate 100 msg, rfl, py_truncate_length_le 100 msg⟩))))⟩⟩
  | otherError msg =>
    refine ⟨by simp [probe_url, h, probe_failure], fun _ =>
      ⟨by simp [probe_url, h, probe_failure],
       "unknown: " ++ py_truncate 100 msg,
       by simp [probe_url, h, probe_failure],
       prefixed_ne_empty _ _ (by decide),
       Or.inr (Or.inr (Or.inr (Or.inr (Or.inr ⟨py_truncate 100 msg, rfl, py_truncate_length_le 100 msg⟩))))⟩⟩

/-- Witness for C1 at a concrete unreachable world. -/
theorem probe_url_total_and_classified_witness :
    (env_timeout.net "http://nosuch.mil" 30 true).isFailure = true ∧
    ((probe_url env_timeout "http://nosuch.mil").status_code = 0 ∧
      ∃ s, (probe_url env_timeout "http://nosuch.mil").error = some s ∧
        s ≠ "" ∧ classified_error s) :=
  ⟨rfl, (probe_url_total_and_classified env_timeout "http://nosuch.mil" 30 true).2 rfl⟩

/-- C2: for every completed probe attempt (the response, when there is
one, bearing a genuine positive HTTP status), exactly one of
`status_code > 0` with no error, or error present with
`status_code = 0`, holds of the returned result. -/
theorem probe_result_exactly_one (env : Env) (url : String) (timeout : Nat)
    (follow_redirects : Bool)
    (h : valid_outcome (env.net url timeout follow_redirects)) :
    Xor'
      (0 < (probe_url env url timeout follow_redirects).status_code ∧
        (probe_url env url timeout follow_redirects).error = none)
      ((probe_url env url timeout follow_redirects).error ≠ none ∧
        (probe_url env url timeout follow_redirects).status_code = 0) := by
  cases hn : env.net url timeout follow_redirects with
  | success resp =>
    rw [hn] at h
    simp only [valid_outcome] at h
    simp only [probe_url, hn]
    split
    · split
      · exact Or.inl ⟨⟨h, rfl⟩, by simp⟩
      · exact Or.inr ⟨⟨by simp [probe_failure], by simp [probe_failure]⟩,
          by simp [probe_failure]⟩
    · exact Or.inl ⟨⟨h, rfl⟩, by simp⟩
  | timeout => exact Or.inr ⟨⟨by simp [probe_url, hn, probe_failure], by simp [probe_url, hn, probe_failure]⟩, by simp [probe_url, hn, probe_failure]⟩
  | connectionError msg => exact Or.inr ⟨⟨by simp [probe_url, hn, probe_failure], by simp [probe_url, hn, probe_failure]⟩, by simp [probe_url, hn, probe_failure]⟩
  | sslError msg => exact Or.inr ⟨⟨by simp [probe_url, hn, probe_failure], by simp [probe_url, hn, probe_failure]⟩, by simp [probe_url, hn, probe_failure]⟩
  | otherError msg => exact Or.inr ⟨⟨by simp [probe_url, hn, probe_failure], by simp [probe_url, hn, probe_failure]⟩, by simp [probe_url, hn, probe_failure]⟩

/-- Witness for C2 at a concrete timed-out probe. -/
theorem probe_result_exactly_one_witness :
    valid_outcome (env_timeout.net "http://x.mil" 30 true) ∧
    Xor'
      (0 < (probe_url env_timeout "http://x.mil").status_code ∧
        (probe_url env_timeout "http://x.mil").error = none)
      ((probe_url env_timeout "http://x.mil").error ≠ none ∧
        (probe_url env_timeout "http://x.mil").status_code = 0) :=
  ⟨True.intro, probe_result_exactly_one env_timeout "http://x.mil" 30 true True.intro⟩

/-- C10: a failed probe result (error set, `status_code = 0`) carries no
extracted signal — headers, technologies, final url, server, title and
content length are all empty/absent — while url and duration remain
populated. -/
theorem failed_probe_no_signal (env : Env) (url : String) (timeout : Nat)
    (follow_redirects : Bool)
    (h1 : (probe_url env url timeout follow_redirects).error ≠ none)
    (_h2 : (probe_url env url timeout follow_redirects).status_code = 0) :
    (probe_url env url timeout follow_redirects).headers = [] ∧
    (probe_url env url timeout follow_redirects).technologies = [] ∧
    (probe_url env url timeout follow_redirects).final_url = none ∧
    (probe_url env url timeout follow_redirects).server = none ∧
    (probe_url env url timeout follow_redirects).title = none ∧
    (probe_url env url timeout follow_redirects).content_length = none ∧
    (probe_url env url timeout follow_redirects).url = url ∧
    (probe_url env url timeout follow_redirects).duration_ms =
      some (env.elapsed_ms url) := by
  cases hn : env.net url timeout follow_redirects with
  | success resp =>
    simp only [probe_url, hn] at h1 ⊢
    split at h1
    · split at h1
      · simp at h1
      · simp_all [probe_failure]
    · simp at h1
  | timeout => simp_all [probe_url, hn, probe_failure]
  | connectionError msg => simp_all [probe_url, hn, probe_failure]
  | sslError msg => simp_all [probe_url, hn, probe_failure]
  | otherError msg => simp_all [probe_url, hn, probe_failure]

/-- Witness for C10 at a concrete timed-out probe. -/
theorem failed_probe_no_signal_witness :
    (probe_url env_timeout "https://x.mil").error ≠ none ∧
    (probe_url env_timeout "https://x.mil").status_code = 0 ∧
    ((probe_url env_timeout "https://x.mil").headers = [] ∧
      (probe_url env_timeout "https://x.mil").technologies = [] ∧
      (probe_url env_timeout "https://x.mil").final_url = none ∧
      (probe_url env_timeout "https://x.mil").server = none ∧
      (probe_url env_timeout "https://x.mil").title = none ∧
      (probe_url env_timeout "https://x.mil").content_length = none ∧
      (probe_url env_timeout "https://x.mil").url = "https://x.mil" ∧
      (probe_url env_timeout "https://x.mil").duration_ms =
        some (env_timeout.elapsed_ms "https://x.mil")) :=
  ⟨by decide, by decide,
   failed_probe_no_signal env_timeout "https://x.mil" 30 true (by decide) (by decide)⟩

theorem infix_chars_iff (p : List Char) : ∀ s, infix_chars p s = true ↔ p <:+: s := by
  intro s
  induction s with
  | nil =>
    simp only [infix_chars, List.isEmpty_iff, List.infix_nil]
  | cons c t ih =>
    simp only [infix_chars, Bool.or_eq_true, List.isPrefixOf_iff_prefix, ih,
      List.infix_cons_iff]

theorem is_false_positive_iff (d : String) :
    is_false_positive d = true ↔ ∃ fp ∈ FALSE_POSITIVES, fp.data <:+: d.data := by
  simp only [is_false_positive, List.any_eq_true, has_sub, infix_chars_iff]

theorem split_replace_eq (cs : List Char) :
    split_on_dot (replace_dashes cs) = spec_components cs := by
  induction cs with
  | nil => rfl
  | cons c cs ih =>
    simp only [split_on_dot, spec_components, replace_dashes, List.map_cons] at ih ⊢
    by_cases h1 : c = '-'
    · subst h1
      simp [split_char, ih]
    · by_cases h2 : c = '.'
      · subst h2
        simp [split_char, ih]
      · simp [split_char, h1, h2, ih]

theorem matches_pattern_iff (d p : String) :
    matches_pattern d p = true ↔ p.data ∈ spec_components d.data := by
  unfold matches_pattern
  rw [split_replace_eq]
  exact List.elem_iff

/-- C4: for every domain and every default pattern, the classifier tags
the domain with the pattern iff some `.`/`-`-delimited component of the
domain equals the pattern exactly and the domain contains no false
positive substring. -/
theorem classifier_tagging_iff (a : Asset) (p : String)
    (hp : p ∈ DEFAULT_PATTERNS) (h0 : a.tags = []) :
    p ∈ (tag_asset a).tags ↔
      (p.data ∈ spec_components a.domain.data ∧
        ∀ fp ∈ FALSE_POSITIVES, ¬ fp.data <:+: a.domain.data) := by
  cases hfp : is_false_positive a.domain with
  | true =>
    obtain ⟨fp, hmem, hinf⟩ := (is_false_positive_iff a.domain).mp hfp
    simp only [tag_asset, hfp, if_true, h0]
    constructor
    · intro hx; cases hx
    · rintro ⟨-, hall⟩
      exact absurd hinf (hall fp hmem)
  | false =>
    have hno : ∀ fp ∈ FALSE_POSITIVES, ¬ fp.data <:+: a.domain.data := by
      intro fp hm hi
      have := (is_false_positive_iff a.domain).mpr ⟨fp, hm, hi⟩
      simp [hfp] at this
    simp only [tag_asset, hfp, Bool.false_eq_true, if_false, h0, List.nil_append,
      List.mem_filter]
    constructor
    · rintro ⟨-, hm⟩
      exact ⟨(matches_pattern_iff a.domain p).mp hm, hno⟩
    · rintro ⟨hc, -⟩
      exact ⟨hp, (matches_pattern_iff a.domain p).mpr hc⟩

/-- Witness for C4 at the domain `dev.a.mil` with pattern `dev`. -/
theorem classifier_tagging_iff_witness :
    "dev" ∈ DEFAULT_PATTERNS ∧ (mk_asset "dev.a.mil").tags = [] ∧
    ("dev" ∈ (tag_asset (mk_asset "dev.a.mil")).tags ↔
      ("dev".data ∈ spec_components "dev.a.mil".data ∧
        ∀ fp ∈ FALSE_POSITIVES, ¬ fp.data <:+: "dev.a.mil".data)) :=
  ⟨by decide, rfl, classifier_tagging_iff (mk_asset "dev.a.mil") "dev" (by decide) rfl⟩

/-- C5 counterexample: with candidate domains
`["a.mil", "A.MIL", "dev.a.mil", "developer.a.mil"]` and filter pattern
`dev`, the processor's output does not contain `a.mil` (and so is not
the claimed `{"a.mil", "dev.a.mil"}`): the filter stage keeps only
assets matching a filter pattern. -/
theorem process_dev_filter_counterexample :
    "a.mil" ∉ ((process cfg_filter_dev env_timeout
        [mk_asset "a.mil", mk_asset "A.MIL", mk_asset "dev.a.mil",
          mk_asset "developer.a.mil"]).fst.map (fun a => a.domain)) ∧
    ((process cfg_filter_dev env_timeout
        [mk_asset "a.mil", mk_asset "A.MIL", mk_asset "dev.a.mil",
          mk_asset "developer.a.mil"]).fst.map (fun a => a.domain)) ≠
      ["a.mil", "dev.a.mil"] := by decide

/-- C5 amended: on those candidates, dedupe + tag + filter `dev` yields
exactly the single asset `dev.a.mil`, tagged `["dev"]`; `a.mil` and
`A.MIL` are excluded by the filter (no component equals `dev`) and
`developer.a.mil` is excluded because `developer` is not equal to `dev`
as a whole component. -/
theorem process_dev_filter_amended :
    ((process cfg_filter_dev env_timeout
        [mk_asset "a.mil", mk_asset "A.MIL", mk_asset "dev.a.mil",
          mk_asset "developer.a.mil"]).fst.map (fun a => (a.domain, a.tags))) =
      [("dev.a.mil", ["dev"])] := by decide

/-- C8 counterexample: for a live asset whose https probe failed (no
server) while its http probe saw `Server: Apache`, the CSV `live`
column is `"True"` (Python `str(True)`), not `"true"`, and the
`server` column is empty — the fallback to the http probe happens only
when there is no https result at all, not per field. -/
theorem csv_columns_counterexample :
    (csv_row csv_asset)[6]? = some "True" ∧
    (csv_row csv_asset)[6]? ≠ some "true" ∧
    (csv_row csv_asset)[9]? = some "" ∧
    (csv_row csv_asset)[9]? ≠ some "Apache" ∧
    csv_asset.live = some true ∧
    csv_asset.http.bind (fun p => p.server) = some "Apache" := by decide

/-- C8 amended: the CSV columns are — discovered_at the ISO-8601
rendering; tags comma-joined; live `""`/`"True"`/`"False"` (Python
`str` of the bool); server, technologies and title all taken from the
preferred probe, the https result when present, otherwise the http
result (absent values rendering as the empty string). -/
theorem csv_columns_amended (a : Asset) :
    (csv_row a)[2]? = some (isoformat a.discovered_at) ∧
    (csv_row a)[5]? = some (py_join "," a.tags) ∧
    (csv_row a)[6]? = some (match a.live with
      | none => ""
      | some true => "True"
      | some false => "False") ∧
    (csv_row a)[9]? = some (match a.https, a.http with
      | some p, _ => p.server.getD ""
      | none, some p => p.server.getD ""
      | none, none => "") ∧
    (csv_row a)[10]? = some (match a.https, a.http with
      | some p, _ => py_join "," p.technologies
      | none, some p => py_join "," p.technologies
      | none, none => "") ∧
    (csv_row a)[11]? = some (match a.https, a.http with
      | some p, _ => p.title.getD ""
      | none, some p => p.title.getD ""
      | none, none => "") := by
  rcases hl : a.live with - | b
  · rcases hs : a.https with - | p <;> rcases hh : a.http with - | q <;>
      simp [csv_row, hl, hs, hh, Option.orElse]
  · rcases hs : a.https with - | p <;> rcases hh : a.http with - | q <;>
      cases b <;> simp [csv_row, hl, hs, hh, Option.orElse, py_str_bool]

theorem mem_ins_sorted (x a : String) (s : List String) :
    x ∈ ins_sorted a s ↔ x = a ∨ x ∈ s := by
  induction s with
  | nil => simp [ins_sorted]
  | cons y ys ih =>
    by_cases h1 : a = y
    · subst h1
      simp [ins_sorted, List.mem_cons]
    · by_cases h2 : a < y
      · simp [ins_sorted, h1, h2, List.mem_cons]
      · simp [ins_sorted, h1, h2, List.mem_cons, ih]
        tauto

theorem mem_sorted_dedup (x : String) (l : List String) :
    x ∈ sorted_dedup l ↔ x ∈ l := by
  induction l with
  | nil => simp [sorted_dedup]
  | cons a t ih =>
    show x ∈ ins_sorted a (sorted_dedup t) ↔ _
    simp [mem_ins_sorted, ih, List.mem_cons]

theorem mem_header_pat_fold_of_mem (re_search : String → String → Option (List String))
    (hv : String) (pats : List (String × String)) :
    ∀ (acc : List String) (x : String), x ∈ acc →
      x ∈ header_pat_fold re_search hv pats acc := by
  induction pats with
  | nil => intro acc x hx; exact hx
  | cons pt rest ih =>
    intro acc x hx
    show x ∈ List.foldl _ _ rest
    rcases hm : re_search pt.fst hv with - | groups
    · simp only [hm]
      exact ih acc x hx
    · simp only [hm]
      exact ih (acc ++ [format_tech pt.snd groups]) x (List.mem_append_left _ hx)

theorem mem_header_pat_fold (re_search : String → String → Option (List String))
    (hv : String) (pats : List (String × String)) (p t : String)
    (groups : List String) (hpt : (p, t) ∈ pats)
    (hs : re_search p hv = some groups) :
    ∀ acc, format_tech t groups ∈ header_pat_fold re_search hv pats acc := by
  induction pats with
  | nil => cases hpt
  | cons pt rest ih =>
    intro acc
    rcases List.mem_cons.mp hpt with heq | htail
    · subst heq
      show format_tech t groups ∈ List.foldl _ _ rest
      simp only [hs]
      exact mem_header_pat_fold_of_mem re_search hv rest _ _
        (List.mem_append_right _ (List.mem_singleton.mpr rfl))
    · show format_tech t groups ∈ List.foldl _ _ rest
      rcases hm : re_search pt.fst hv with - | g2 <;> simp only [hm] <;>
        exact ih htail _

theorem mem_header_table_fold_of_mem (re_search : String → String → Option (List String))
    (headers : List (String × String)) :
    ∀ (table : List (String × List (String × String))) (acc : List String)
      (x : String), x ∈ acc → x ∈ header_table_fold re_search headers table acc := by
  intro table
  induction table with
  | nil => intro acc x hx; exact hx
  | cons entry rest ih =>
    intro acc x hx
    show x ∈ List.foldl _ _ rest
    by_cases hv : to_lower ((lookup_header headers entry.fst).getD "") = ""
    · simp only [hv, if_pos rfl]
      exact ih acc x hx
    · simp only [if_neg hv]
      exact ih _ x (mem_header_pat_fold_of_mem re_search _ entry.snd acc x hx)

theorem mem_header_table_fold (re_search : String → String → Option (List String))
    (headers : List (String × String))
    (table : List (String × List (String × String)))
    (hname : String) (pats : List (String × String)) (p t : String)
    (groups : List String)
    (hmem : (hname, pats) ∈ table)
    (hv_ne : to_lower ((lookup_header headers hname).getD "") ≠ "")
    (hs : re_search p (to_lower ((lookup_header headers hname).getD "")) = some groups)
    (hpt : (p, t) ∈ pats) :
    ∀ acc, format_tech t groups ∈ header_table_fold re_search headers table acc := by
  induction table with
  | nil => cases hmem
  | cons entry rest ih =>
    intro acc
    rcases List.mem_cons.mp hmem with heq | htail
    · subst heq
      show format_tech t groups ∈ List.foldl _ _ rest
      simp only [if_neg hv_ne]
      exact mem_header_table_fold_of_mem re_search headers rest _ _
        (mem_header_pat_fold re_search _ pats p t groups hpt hs acc)
    · show format_tech t groups ∈ List.foldl _ _ rest
      by_cases hv2 : to_lower ((lookup_header headers entry.fst).getD "") = ""
      · simp only [hv2, if_pos rfl]
        exact ih htail _
      · simp only [if_neg hv2]
        exact ih htail _

/-- C6: for every header signature whose label template contains the
`{0}` version placeholder, a match that captures a version substring
emits the label with the version substituted (all `{0}` occurrences
replaced by the first captured group), and a match whose `groups()` is
empty emits the label with the `/{0}` placeholder removed (the bare
label, no trailing separator). -/
theorem fingerprint_version_template
    (re_search : String → String → Option (List String))
    (headers : List (String × String)) (body : String)
    (hname : String) (pats : List (String × String)) (p t : String)
    (h1 : (hname, pats) ∈ HEADER_FINGERPRINTS) (h2 : (p, t) ∈ pats)
    (h3 : has_sub "{0}" t = true)
    (hv_ne : to_lower ((lookup_header headers hname).getD "") ≠ "") :
    (∀ g gs,
      re_search p (to_lower ((lookup_header headers hname).getD "")) = some (g :: gs) →
      str_replace t "{0}" g ∈ detect_technologies re_search headers body) ∧
    (re_search p (to_lower ((lookup_header headers hname).getD "")) = some [] →
      str_replace t "/{0}" "" ∈ detect_technologies re_search headers body) := by
  constructor
  · intro g gs hs
    have hfmt : format_tech t (g :: gs) = str_replace t "{0}" g := by
      simp [format_tech, h3]
    have hm := mem_header_table_fold re_search headers HEADER_FINGERPRINTS hname
      pats p t (g :: gs) h1 hv_ne hs h2 []
    rw [hfmt] at hm
    exact (mem_sorted_dedup _ _).mpr
      (List.mem_append_left _ (List.mem_append_left _ hm))
  · intro hs
    have hfmt : format_tech t [] = str_replace t "/{0}" "" := by
      simp [format_tech, h3]
    have hm := mem_header_table_fold re_search headers HEADER_FINGERPRINTS hname
      pats p t [] h1 hv_ne hs h2 []
    rw [hfmt] at hm
    exact (mem_sorted_dedup _ _).mpr
      (List.mem_append_left _ (List.mem_append_left _ hm))

/-- Witness for C6: the IIS server signature against
`Server: Microsoft-IIS/10.0` yields the label `IIS/10.0`. -/
theorem fingerprint_version_template_witness :
    ("server", SERVER_PATTERNS) ∈ HEADER_FINGERPRINTS ∧
    ("microsoft-iis/(\\d+\\.?\\d*)", "IIS/{0}") ∈ SERVER_PATTERNS ∧
    has_sub "{0}" "IIS/{0}" = true ∧
    iis_search "microsoft-iis/(\\d+\\.?\\d*)"
      (to_lower ((lookup_header [("server", "Microsoft-IIS/10.0")] "server").getD "")) =
      some ["10.0"] ∧
    "IIS/10.0" ∈ detect_technologies iis_search
      [("server", "Microsoft-IIS/10.0")] "" := by
  refine ⟨by decide, by decide, by decide, by decide, ?_⟩
  have h := (fingerprint_version_template iis_search
    [("server", "Microsoft-IIS/10.0")] "" "server" SERVER_PATTERNS
    "microsoft-iis/(\\d+\\.?\\d*)" "IIS/{0}" (by decide) (by decide) (by decide)
    (by decide)).1 "10.0" [] (by decide)
  have he : str_replace "IIS/{0}" "{0}" "10.0" = "IIS/10.0" := by decide
  rw [he] at h
  exact h

/-- C3: per asset, the pipeline resolves first; on DNS failure the
asset ends `live = false` with `ip`, `http`, `https` still unset and no
probe is attempted (no probe call in its event trace); on DNS success
the asset ends `live = true` with `ip` set, and when probing is enabled
one HTTP and one HTTPS probe are both attempted and both results are
recorded regardless of each probe's outcome. -/
theorem liveness_pipeline_stages (cfg : ProcessorCfg) (env : Env)
    (i total : Nat) (a : Asset) :
    (env.resolve a.domain = none → a.ip = none → a.http = none → a.https = none →
      (check_live_asset cfg env i total a).fst.live = some false ∧
      (check_live_asset cfg env i total a).fst.ip = none ∧
      (check_live_asset cfg env i total a).fst.http = none ∧
      (check_live_asset cfg env i total a).fst.https = none ∧
      ∀ u, Event.probe_call u ∉ (check_live_asset cfg env i total a).snd.fst) ∧
    (∀ ip, env.resolve a.domain = some ip →
      (check_live_asset cfg env i total a).fst.live = some true ∧
      (check_live_asset cfg env i total a).fst.ip = some ip ∧
      (cfg.probe_http = true →
        (check_live_asset cfg env i total a).fst.http =
          some (probe_url env ("http://" ++ a.domain)) ∧
        (check_live_asset cfg env i total a).fst.https =
          some (probe_url env ("https://" ++ a.domain)) ∧
        Event.probe_call ("http://" ++ a.domain) ∈
          (check_live_asset cfg env i total a).snd.fst ∧
        Event.probe_call ("https://" ++ a.domain) ∈
          (check_live_asset cfg env i total a).snd.fst)) := by
  constructor
  · intro hr hip hh hhs
    cases hsp : cfg.show_progress <;> cases hv : cfg.verbose <;>
      simp [check_live_asset, hr, hsp, hv, hip, hh, hhs]
  · intro ip hr
    cases hp : cfg.probe_http
    · refine ⟨?_, ?_, ?_⟩ <;> simp [check_live_asset, hr, hp]
    · cases hsp : cfg.show_progress <;> cases hv : cfg.verbose <;>
        simp [check_live_asset, hr, hp, hsp, hv, probe_domain]

/-- Witness for C3: a dead domain and a live probed domain in concrete
worlds. -/
theorem liveness_pipeline_stages_witness :
    env_timeout.resolve "x.mil" = none ∧
    (check_live_asset cfg_probe env_timeout 1 1 (mk_asset "x.mil")).fst.live = some false ∧
    (check_live_asset cfg_probe env_timeout 1 1 (mk_asset "x.mil")).fst.http = none ∧
    env_live.resolve "x.mil" = some "10.0.0.1" ∧
    (check_live_asset cfg_probe env_live 1 1 (mk_asset "x.mil")).fst.live = some true ∧
    (check_live_asset cfg_probe env_live 1 1 (mk_asset "x.mil")).fst.ip = some "10.0.0.1" ∧
    (check_live_asset cfg_probe env_live 1 1 (mk_asset "x.mil")).fst.https =
      some (probe_url env_live "https://x.mil") ∧
    Event.probe_call "http://x.mil" ∈
      (check_live_asset cfg_probe env_live 1 1 (mk_asset "x.mil")).snd.fst := by
  have hd := (liveness_pipeline_stages cfg_probe env_timeout 1 1 (mk_asset "x.mil")).1
    rfl rfl rfl rfl
  have hl := (liveness_pipeline_stages cfg_probe env_live 1 1 (mk_asset "x.mil")).2
    "10.0.0.1" rfl
  exact ⟨rfl, hd.1, hd.2.2.1, rfl, hl.1, hl.2.1, (hl.2.2 rfl).2.1, (hl.2.2 rfl).2.2.1⟩

theorem check_live_asset_fst_eq (c₁ c₂ : ProcessorCfg)
    (h : c₁.probe_http = c₂.probe_http) (env : Env) (i₁ t₁ i₂ t₂ : Nat)
    (a : Asset) :
    (check_live_asset c₁ env i₁ t₁ a).fst = (check_live_asset c₂ env i₂ t₂ a).fst ∧
    (check_live_asset c₁ env i₁ t₁ a).snd.snd =
      (check_live_asset c₂ env i₂ t₂ a).snd.snd := by
  cases hr : env.resolve a.domain with
  | none => simp [check_live_asset, hr]
  | some ip =>
    simp only [check_live_asset, hr, h]
    cases c₂.probe_http <;> simp

theorem check_live_go_fst_eq (c₁ c₂ : ProcessorCfg)
    (h : c₁.probe_http = c₂.probe_http) (env : Env) (total₁ total₂ : Nat) :
    ∀ (assets : List Asset) (i₁ i₂ l d : Nat),
      (check_live_go c₁ env total₁ i₁ l d assets).fst =
        (check_live_go c₂ env total₂ i₂ l d assets).fst ∧
      (check_live_go c₁ env total₁ i₁ l d assets).snd.snd =
        (check_live_go c₂ env total₂ i₂ l d assets).snd.snd := by
  intro assets
  induction assets with
  | nil => intro i₁ i₂ l d; exact ⟨rfl, rfl⟩
  | cons a rest ih =>
    intro i₁ i₂ l d
    have ha := check_live_asset_fst_eq c₁ c₂ h env i₁ total₁ i₂ total₂ a
    simp only [check_live_go]
    rw [ha.1, ha.2]
    have hrec := ih (i₁ + 1) (i₂ + 1)
      (if (check_live_asset c₂ env i₂ total₂ a).snd.snd then l + 1 else l)
      (if (check_live_asset c₂ env i₂ total₂ a).snd.snd then d else d + 1)
    exact ⟨by rw [hrec.1], by rw [hrec.2]⟩

theorem check_live_fst_eq (c₁ c₂ : ProcessorCfg)
    (h : c₁.probe_http = c₂.probe_http) (env : Env) (assets : List Asset) :
    (check_live c₁ env assets).fst = (check_live c₂ env assets).fst := by
  simp only [check_live]
  exact (check_live_go_fst_eq c₁ c₂ h env assets.length assets.length assets 1 1 0 0).1

/-- C7: for every input asset list and every configuration of filters,
liveness and probing, running the processor with progress reporting
enabled and with it disabled yields the same output asset list — the
progress side channel never affects the result value. -/
theorem progress_disableable_same_output (env : Env) (filters : List String)
    (check_liveness probe_http verbose : Bool) (assets : List Asset) :
    (process ⟨filters, check_liveness, probe_http, true, verbose⟩ env assets).fst =
    (process ⟨filters, check_liveness, probe_http, false, verbose⟩ env assets).fst := by
  simp only [process]
  cases hc : check_liveness || probe_http with
  | false => simp
  | true =>
    simp only [hc, if_true]
    exact check_live_fst_eq
      ⟨filters, check_liveness, probe_http, true, verbose⟩
      ⟨filters, check_liveness, probe_http, false, verbose⟩ rfl env _

theorem of_digits_append (l₁ l₂ : List Nat) :
    of_digits (l₁ ++ l₂) = of_digits l₁ + 10 ^ l₁.length * of_digits l₂ := by
  induction l₁ with
  | nil => simp [of_digits]
  | cons d t ih =>
    rw [List.cons_append]
    show d + 10 * of_digits (t ++ l₂) =
      (d + 10 * of_digits t) + 10 ^ (t.length + 1) * of_digits l₂
    rw [ih]
    ring

theorem of_digits_replicate_zero (k : Nat) :
    of_digits (List.replicate k 0) = 0 := by
  induction k with
  | zero => rfl
  | succ k ih => simp [List.replicate_succ, of_digits, ih]

theorem digits_core_lt (fuel : Nat) : ∀ n d, d ∈ digits_core fuel n → d < 10 := by
  induction fuel with
  | zero => intro n d h; cases h
  | succ fuel ih =>
    intro n d h
    by_cases hn : n = 0
    · simp [digits_core, hn] at h
    · simp only [digits_core, if_neg hn] at h
      rcases List.mem_cons.mp h with rfl | h2
      · exact Nat.mod_lt _ (by norm_num)
      · exact ih _ _ h2

theorem of_digits_digits_core : ∀ fuel n, n ≤ fuel →
    of_digits (digits_core fuel n) = n := by
  intro fuel
  induction fuel with
  | zero =>
    intro n h
    have : n = 0 := Nat.le_zero.mp h
    subst this
    rfl
  | succ fuel ih =>
    intro n h
    by_cases hn : n = 0
    · subst hn; rfl
    · simp only [digits_core, if_neg hn, of_digits]
      have hdiv : n / 10 ≤ fuel := by
        have h1 : n / 10 < n := Nat.div_lt_self (Nat.pos_of_ne_zero hn) (by norm_num)
        omega
      rw [ih _ hdiv]
      exact Nat.mod_add_div n 10

theorem char_val_digitChar : ∀ d, d < 10 → char_val (Nat.digitChar d) = d := by decide

theorem isDigit_digitChar : ∀ d, d < 10 → (Nat.digitChar d).isDigit = true := by decide

theorem nat_chars_all_digit (n : Nat) : ∀ c ∈ nat_chars n, c.isDigit = true := by
  intro c hc
  by_cases hn : n = 0
  · subst hn
    have hc0 : c = '0' := by simpa [nat_chars] using hc
    subst hc0
    decide
  · unfold nat_chars at hc
    rw [if_neg hn] at hc
    rcases List.mem_map.mp hc with ⟨d, hd, rfl⟩
    exact isDigit_digitChar d (digits_core_lt n n d (List.mem_reverse.mp hd))

theorem nat_chars_ne_nil (n : Nat) : nat_chars n ≠ [] := by
  unfold nat_chars
  by_cases hn : n = 0
  · simp [hn]
  · simp only [if_neg hn]
    intro hcon
    have hlen := congrArg List.length hcon
    cases n with
    | zero => exact hn rfl
    | succ m =>
      simp only [List.length_map, List.length_reverse, digits_core,
        if_neg hn, List.length_cons, List.length_nil] at hlen
      omega

theorem chars_to_nat_nat_chars (n : Nat) : chars_to_nat (nat_chars n) = n := by
  by_cases hn : n = 0
  · subst hn; decide
  · unfold nat_chars
    rw [if_neg hn]
    unfold chars_to_nat
    rw [List.map_map]
    have hcongr : ∀ d ∈ (digits_core n n).reverse,
        (char_val ∘ Nat.digitChar) d = id d := fun d hd =>
      char_val_digitChar d (digits_core_lt n n d (List.mem_reverse.mp hd))
    rw [List.map_congr_left hcongr, List.map_id, List.reverse_reverse]
    exact of_digits_digits_core n n le_rfl

theorem chars_to_nat_pad (w n : Nat) : chars_to_nat (pad_chars w n) = n := by
  unfold pad_chars
  show of_digits (((List.replicate _ '0' ++ nat_chars n).map char_val).reverse) = n
  rw [List.map_append, List.reverse_append, List.map_replicate,
    List.reverse_replicate]
  rw [of_digits_append]
  have h0 : char_val '0' = 0 := rfl
  rw [h0, of_digits_replicate_zero, Nat.mul_zero, Nat.add_zero]
  exact chars_to_nat_nat_chars n

theorem pad_chars_all_digit (w n : Nat) : ∀ c ∈ pad_chars w n, c.isDigit = true := by
  intro c hc
  rcases List.mem_append.mp hc with h | h
  · rw [List.eq_of_mem_replicate h]
    decide
  · exact nat_chars_all_digit n c h

theorem pad_chars_ne_nil (w n : Nat) : pad_chars w n ≠ [] := by
  unfold pad_chars
  intro h
  exact nat_chars_ne_nil n (List.append_eq_nil.mp h).2

theorem takeWhile_all_append (p : Char → Bool) (l₁ l₂ : List Char)
    (h : ∀ a ∈ l₁, p a = true) :
    (l₁ ++ l₂).takeWhile p = l₁ ++ l₂.takeWhile p := by
  induction l₁ with
  | nil => simp
  | cons a t ih =>
    rw [List.cons_append, List.takeWhile_cons, if_pos (h a (List.mem_cons_self a t)),
      ih (fun b hb => h b (List.mem_cons_of_mem a hb)), List.cons_append]

theorem dropWhile_all_append (p : Char → Bool) (l₁ l₂ : List Char)
    (h : ∀ a ∈ l₁, p a = true) :
    (l₁ ++ l₂).dropWhile p = l₂.dropWhile p := by
  induction l₁ with
  | nil => simp
  | cons a t ih =>
    rw [List.cons_append, List.dropWhile_cons, if_pos (h a (List.mem_cons_self a t)),
      ih (fun b hb => h b (List.mem_cons_of_mem a hb))]

theorem read_nat_pad (w n : Nat) (rest : List Char)
    (hrest : ∀ c, rest.head? = some c → c.isDigit = false) :
    read_nat (pad_chars w n ++ rest) = some (n, rest) := by
  have htr : rest.takeWhile Char.isDigit = [] := by
    cases rest with
    | nil => rfl
    | cons c t =>
      rw [List.takeWhile_cons, if_neg (by simp [hrest c List.head?_cons])]
  have hdr : rest.dropWhile Char.isDigit = rest := by
    cases rest with
    | nil => rfl
    | cons c t =>
      rw [List.dropWhile_cons, if_neg (by simp [hrest c List.head?_cons])]
  unfold read_nat
  rw [takeWhile_all_append _ _ _ (pad_chars_all_digit w n), htr, List.append_nil,
    dropWhile_all_append _ _ _ (pad_chars_all_digit w n), hdr]
  rw [if_neg (by simp [List.isEmpty_iff, pad_chars_ne_nil w n])]
  rw [chars_to_nat_pad]

theorem parse_num_sep_pad (w n : Nat) (c : Char) (hc : c.isDigit = false)
    (rest : List Char) :
    parse_num_sep c (pad_chars w n ++ c :: rest) = some (n, rest) := by
  unfold parse_num_sep
  rw [read_nat_pad w n (c :: rest)
    (by intro x hx; rw [List.head?_cons] at hx; cases hx; exact hc)]
  simp [expect_char]

theorem tz_ok_cases (sfx : List Char) (h : tz_ok sfx = true) :
    sfx = ['Z'] ∨ sfx = ['+', '0', '0', ':', '0', '0'] := by
  simpa [tz_ok] using h

theorem parse_tail_round (mic : Nat) (sfx : List Char) (h : tz_ok sfx = true) :
    parse_tail ((if mic = 0 then [] else '.' :: pad_chars 6 mic) ++ sfx) =
      some mic := by
  by_cases hm : mic = 0
  · subst hm
    rw [if_pos rfl, List.nil_append]
    rcases tz_ok_cases sfx h with rfl | rfl <;> rfl
  · rw [if_neg hm, List.cons_append]
    have hr := read_nat_pad 6 mic sfx
      (by rcases tz_ok_cases sfx h with rfl | rfl <;>
        (intro x hx; rw [List.head?_cons] at hx; cases hx; decide))
    simp [parse_tail, hr, h]

theorem opt_bind_some {α β : Type} (a : α) (f : α → Option β) :
    (do let x ← some a; f x : Option β) = f a := rfl

theorem iso_parse_round (d : DateTime) (sfx : List Char) (h : tz_ok sfx = true) :
    iso_parse ⟨iso_chars d sfx⟩ = some d := by
  have hsec_rest : ∀ c,
      (((if d.microsecond = 0 then [] else '.' :: pad_chars 6 d.microsecond) ++
        sfx).head? = some c) → c.isDigit = false := by
    intro c hc
    by_cases hm : d.microsecond = 0
    · rw [if_pos hm, List.nil_append] at hc
      rcases tz_ok_cases sfx h with rfl | rfl <;>
        (rw [List.head?_cons] at hc; cases hc; decide)
    · rw [if_neg hm, List.cons_append, List.head?_cons] at hc
      cases hc
      decide
  unfold iso_parse iso_chars
  simp only [List.append_assoc, opt_bind_some,
    parse_num_sep_pad 4 d.year '-' (by decide),
    parse_num_sep_pad 2 d.month '-' (by decide),
    parse_num_sep_pad 2 d.day 'T' (by decide),
    parse_num_sep_pad 2 d.hour ':' (by decide),
    parse_num_sep_pad 2 d.minute ':' (by decide),
    read_nat_pad 2 d.second
      ((if d.microsecond = 0 then [] else '.' :: pad_chars 6 d.microsecond) ++ sfx)
      hsec_rest,
    parse_tail_round d.microsecond sfx h]
  rfl

theorem as_opt_str_round (o : Option String) :
    as_opt as_str (opt_json Json.str o) = some o := by cases o <;> rfl

theorem as_opt_bool_round (o : Option Bool) :
    as_opt as_bool (opt_json Json.bool o) = some o := by cases o <;> rfl

theorem as_opt_int_round (o : Option Int) :
    as_opt as_int (opt_json Json.num o) = some o := by cases o <;> rfl

theorem as_nat_num (k : Nat) : as_nat (Json.num (k : Int)) = some k := by
  simp only [as_nat]
  rw [if_neg (by omega)]
  simp

theorem as_opt_nat_round (o : Option Nat) :
    as_opt as_nat (opt_json (fun n : Nat => Json.num (n : Int)) o) = some o := by
  cases o with
  | none => rfl
  | some k =>
    show (as_nat (Json.num (k : Int))).map some = some (some k)
    rw [as_nat_num]
    rfl

theorem as_dt_json (d : DateTime) : as_dt (Json.str (iso_json d)) = some d := by
  show iso_parse ⟨iso_chars d ['Z']⟩ = some d
  exact iso_parse_round d ['Z'] (by decide)

theorem as_opt_dt_round (o : Option DateTime) :
    as_opt as_dt (opt_json (fun d => Json.str (iso_json d)) o) = some o := by
  cases o with
  | none => rfl
  | some d =>
    show (as_dt (Json.str (iso_json d))).map some = some (some d)
    rw [as_dt_json]
    rfl

theorem mapM_as_str (l : List String) :
    (l.map Json.str).mapM as_str = some l := by
  induction l with
  | nil => rfl
  | cons s t ih =>
    rw [List.map_cons, List.mapM_cons, show as_str (Json.str s) = some s from rfl, ih]
    rfl

theorem as_str_list_round (l : List String) :
    as_str_list (Json.arr (l.map Json.str)) = some l := by
  show (l.map Json.str).mapM as_str = some l
  exact mapM_as_str l

theorem mapM_pairs (hs : List (String × String)) :
    (hs.map (fun kv => (kv.fst, Json.str kv.snd))).mapM
      (fun kv => (as_str kv.snd).map (fun v => (kv.fst, v))) = some hs := by
  induction hs with
  | nil => rfl
  | cons kv t ih =>
    rw [List.map_cons, List.mapM_cons, ih]
    rfl

theorem as_str_pairs_round (hs : List (String × String)) :
    as_str_pairs (Json.obj (hs.map (fun kv => (kv.fst, Json.str kv.snd)))) =
      some hs := by
  show (hs.map _).mapM _ = some hs
  exact mapM_pairs hs

theorem probe_of_json_round (p : HttpProbeResult) :
    probe_of_json (probe_to_json p) = some p := by
  unfold probe_to_json probe_of_json
  simp [field_req, field_opt, json_lookup, as_str, as_bool, as_nat_num,
    as_opt_str_round, as_opt_bool_round, as_opt_int_round, as_opt_nat_round,
    as_str_list_round, as_str_pairs_round]

theorem as_opt_probe_round (o : Option HttpProbeResult) :
    as_opt probe_of_json (opt_json probe_to_json o) = some o := by
  cases o with
  | none => rfl
  | some p =>
    show (probe_of_json (probe_to_json p)).map some = some (some p)
    rw [probe_of_json_round]
    rfl

theorem load_item_round (now : DateTime) (a : Asset) :
    load_item now (asset_to_json a) = some a := by
  unfold asset_to_json load_item asset_of_json
  simp [field_req, field_opt, json_lookup, as_str, as_dt_json,
    as_opt_str_round, as_opt_bool_round, as_opt_dt_round, as_opt_probe_round,
    as_str_list_round]

theorem mapM_load_item (now : DateTime) (assets : List Asset) :
    (assets.map asset_to_json).mapM (load_item now) = some assets := by
  induction assets with
  | nil => rfl
  | cons a t ih =>
    rw [List.map_cons, List.mapM_cons, load_item_round, ih]
    rfl

/-- C9: serializing any asset list with the JSON output and parsing the
result back as the asset loader does yields the original assets
field-for-field (timestamps included, at the serialized microsecond
precision). -/
theorem json_roundtrip (now : DateTime) (assets : List Asset) :
    load_assets now (write_json assets) = some assets := by
  show (assets.map asset_to_json).mapM (load_item now) = some assets
  exact mapM_load_item now assets
